import Mathlib

/-!
Shallow embedding of the mad-icon icon-generation core
(`src/mad_icon/types/icon_generation_types.py`,
`src/mad_icon/models/resolution.py`,
`src/mad_icon/utilities/icon_generation_utils.py`,
`src/mad_icon/utilities/image_processing.py`), together with theorems
settling the frozen claims about its specification.

Python machine-level conventions used throughout:
* Python `bytes` values are modelled as `List Nat` (byte values);
* Python dicts with a fixed key set are modelled as structures with one
  field per key (`dict.get` on an unknown key is modelled by a lookup
  function returning `none`);
* functions that can raise are modelled with `Except String` or `Option`;
* external collaborators (cairosvg rasterization, Pillow decoding/resizing,
  lxml parsing) are modelled as explicit function parameters.
-/

/-- Byte strings (`bytes` in Python). -/
abbrev PyBytes : Type := List Nat

/-- `IconSourceKey` (`icon_generation_types.py`): the key for the source image
used to generate the icon. -/
inductive IconSourceKey where
  | BASE
  | MASKED
  | MONOCHROME
  | DARK
  | TINTED
  | TILE_RECTANGLE
deriving DecidableEq, Repr

/-- The `StrEnum` value of each `IconSourceKey` member. -/
def IconSourceKey.value : IconSourceKey → String
  | .BASE => "base"
  | .MASKED => "masked"
  | .MONOCHROME => "monochrome"
  | .DARK => "dark"
  | .TINTED => "tinted"
  | .TILE_RECTANGLE => "tile-rectangle"

/-- `IconSourceKey.fallback_strategy`: the source's `match` has explicit cases
for `MASKED`, `DARK`, `TINTED` and `TILE_RECTANGLE`; every other member
(including `BASE` and `MONOCHROME`) falls to the wildcard case, which
returns `MASKED`. -/
def IconSourceKey.fallback_strategy : IconSourceKey → IconSourceKey
  | .MASKED => .BASE
  | .DARK => .BASE
  | .TINTED => .DARK
  | .TILE_RECTANGLE => .BASE
  | _ => .MASKED

/-- `IconDescriptiveName` (`icon_generation_types.py`). -/
inductive IconDescriptiveName where
  | APPLE_TOUCH
  | ANDROID_MASKED
  | ANDROID_MONOCHROME
  | APPLE_DARKMODE
  | APPLE_TINTED
  | HTML
  | NO_ICONS
  | MACOS
  | MANIFEST
  | MS_TILES
deriving DecidableEq, Repr

/-- The `StrEnum` value of each `IconDescriptiveName` member. -/
def IconDescriptiveName.value : IconDescriptiveName → String
  | .APPLE_TOUCH => "Apple Touch"
  | .ANDROID_MASKED => "Android Masked"
  | .ANDROID_MONOCHROME => "Android Monochrome"
  | .APPLE_DARKMODE => "Apple Dark Mode"
  | .APPLE_TINTED => "Apple Tinted"
  | .HTML => "HTML"
  | .NO_ICONS => "No Icons"
  | .MACOS => "macOS"
  | .MANIFEST => "Manifest Json"
  | .MS_TILES => "MS Tiles"

/-- `IconSizeGroup` (`icon_generation_types.py`): which icon sizes to use,
as attribute paths into the data model. -/
inductive IconSizeGroup where
  | APPLE_TOUCH
  | MACOS
  | MASKED
  | MS_TILES
deriving DecidableEq, Repr

/-- The `StrEnum` value of each `IconSizeGroup` member. -/
def IconSizeGroup.value : IconSizeGroup → String
  | .APPLE_TOUCH => "apple.icon_sizes"
  | .MACOS => "apple.macos_icon_sizes"
  | .MASKED => "android.masked_icon_sizes"
  | .MS_TILES => "mstile.sizes"

/-- A manifest-purpose value as it flows through the pipeline: either a single
`ManifestPurpose` string or the tuple of two of them that
`IconGenerationFlag.manifest_purpose` returns for `MONOCHROME`. -/
inductive PurposeValue where
  | one (p : String)
  | pair (a b : String)
deriving DecidableEq, Repr

/-- `IconGenerationFlag` (`icon_generation_types.py`). -/
inductive IconGenerationFlag where
  | APPLE_TOUCH
  | NO_ICONS
  | MASKED
  | MONOCHROME
  | DARKMODE
  | TINTED
  | MACOS
  | MS_TILES
  | HTML
  | MANIFEST
deriving DecidableEq, Repr

/-- `IconGenerationFlag.is_not_icon_flag`. -/
def IconGenerationFlag.is_not_icon_flag : IconGenerationFlag → Bool
  | .NO_ICONS => true
  | .MANIFEST => true
  | .HTML => true
  | _ => false

/-- `IconGenerationFlag.descriptive_name`: the source builds a member name by
prefixing `ANDROID_` / `APPLE_` and looks it up in
`IconDescriptiveName.__members__` with a default; for `APPLE_TOUCH` the
constructed name `APPLE_APPLE_TOUCH` is absent, so the lookup default
`APPLE_TOUCH` applies.  Each lookup is resolved statically here. -/
def IconGenerationFlag.descriptive_name : IconGenerationFlag → IconDescriptiveName
  | .MASKED => .ANDROID_MASKED
  | .MONOCHROME => .ANDROID_MONOCHROME
  | .APPLE_TOUCH => .APPLE_TOUCH
  | .DARKMODE => .APPLE_DARKMODE
  | .TINTED => .APPLE_TINTED
  | .HTML => .HTML
  | .NO_ICONS => .NO_ICONS
  | .MACOS => .MACOS
  | .MANIFEST => .MANIFEST
  | .MS_TILES => .MS_TILES

/-- `IconGenerationFlag.source_key`: `None` for non-icon flags; the wildcard
case looks the flag name up in `IconSourceKey.__members__` with default
`MASKED`, which resolves to `MASKED`, `MONOCHROME` and `TINTED` for those
flags. -/
def IconGenerationFlag.source_key : IconGenerationFlag → Option IconSourceKey
  | .NO_ICONS => none
  | .MANIFEST => none
  | .HTML => none
  | .MS_TILES => some .TILE_RECTANGLE
  | .MACOS => some .BASE
  | .APPLE_TOUCH => some .BASE
  | .DARKMODE => some .DARK
  | .MASKED => some .MASKED
  | .MONOCHROME => some .MONOCHROME
  | .TINTED => some .TINTED

/-- `IconGenerationFlag.model_attr`: `None` for non-icon flags; explicit cases
for `MASKED`, `MACOS` and `MS_TILES`; every other icon flag (including
`MONOCHROME`) falls to the wildcard case returning
`IconSizeGroup.APPLE_TOUCH`. -/
def IconGenerationFlag.model_attr : IconGenerationFlag → Option IconSizeGroup
  | .NO_ICONS => none
  | .MANIFEST => none
  | .HTML => none
  | .MASKED => some .MASKED
  | .MACOS => some .MACOS
  | .MS_TILES => some .MS_TILES
  | _ => some .APPLE_TOUCH

/-- `IconGenerationFlag.subdir`. -/
def IconGenerationFlag.subdir : IconGenerationFlag → String
  | .MASKED => "masked"
  | .MONOCHROME => "masked-monochrome"
  | .DARKMODE => "apple-dark"
  | .TINTED => "tinted"
  | .MACOS => "macos"
  | .MS_TILES => "mstile"
  | .APPLE_TOUCH => ""
  | _ => "../"

/-- `ProcessingRequirements` (`icon_generation_types.py`); the source's
`needs_opaque` key is spelt `needs_opaque_bg` here. -/
structure ProcessingRequirements where
  needs_desat : Bool
  needs_opaque_bg : Bool
  needs_trans : Bool
  needs_clip : Bool
deriving DecidableEq, Repr

/-- `IconGenerationFlag.processing_requirements`: `None` for non-icon flags. -/
def IconGenerationFlag.processing_requirements :
    IconGenerationFlag → Option ProcessingRequirements
  | .NO_ICONS => none
  | .MANIFEST => none
  | .HTML => none
  | .MASKED => some ⟨false, true, false, false⟩
  | .MONOCHROME => some ⟨true, true, false, false⟩
  | .DARKMODE => some ⟨false, false, true, false⟩
  | .TINTED => some ⟨true, false, true, false⟩
  | .MACOS => some ⟨false, true, false, true⟩
  | .MS_TILES => some ⟨false, true, false, false⟩
  | .APPLE_TOUCH => some ⟨false, true, false, false⟩

/-- `IconGenerationFlag.manifest_purpose`: `None` for non-icon flags; the
`MONOCHROME` case returns the tuple `(MASKABLE, MONOCHROME)`. -/
def IconGenerationFlag.manifest_purpose : IconGenerationFlag → Option PurposeValue
  | .NO_ICONS => none
  | .MANIFEST => none
  | .HTML => none
  | .MASKED => some (.one "maskable")
  | .MONOCHROME => some (.pair "maskable" "monochrome")
  | .TINTED => some (.one "monochrome")
  | .MACOS => some (.one "any")
  | _ => some (.one "not_manifested")

/-- `IconGenerationConfig` (`icon_generation_types.py`): a `TypedDict` with
`total=False`; the optional keys that `get_flag_config` omits for non-icon
flags are modelled as `Option` fields defaulting to `none`. -/
structure IconGenerationConfig where
  flag_key : IconGenerationFlag
  name : IconDescriptiveName
  subdir : String
  is_icon_flag : Bool
  source_key : Option IconSourceKey := none
  model_attr : Option IconSizeGroup := none
  purpose : Option PurposeValue := none
  needs_desat : Option Bool := none
  needs_opaque_bg : Option Bool := none
  needs_trans : Option Bool := none
  needs_clip : Option Bool := none
deriving DecidableEq, Repr

/-- `get_flag_config` (`icon_generation_types.py`).  For icon flags
`processing_requirements` is always `some` (the non-icon flags were already
filtered out), so the `**`-unpacking of the requirements is modelled by
projecting from it with a defaulted `Option.getD` (never hit). -/
def get_flag_config (flag : IconGenerationFlag) : IconGenerationConfig :=
  if flag.is_not_icon_flag then
    { flag_key := flag
      name := flag.descriptive_name
      subdir := flag.subdir
      is_icon_flag := false }
  else
    let reqs := (flag.processing_requirements).getD ⟨false, false, false, false⟩
    { flag_key := flag
      name := flag.descriptive_name
      subdir := flag.subdir
      is_icon_flag := true
      source_key := flag.source_key
      model_attr := flag.model_attr
      purpose := flag.manifest_purpose
      needs_desat := some reqs.needs_desat
      needs_opaque_bg := some reqs.needs_opaque_bg
      needs_trans := some reqs.needs_trans
      needs_clip := some reqs.needs_clip }

/-- `Resolution` (`models/resolution.py`): a frozen dataclass with fields
`height` and `width` (Python `int`, modelled as `Int`). -/
structure Resolution where
  height : Int
  width : Int
deriving DecidableEq, Repr

/-- `Resolution.__init__`: rejects non-positive dimensions, then stores the
pair swapped if `height > width`, so that `height ≤ width` holds. -/
def Resolution.init (height width : Int) : Except String Resolution :=
  if height ≤ 0 ∨ width ≤ 0 then
    .error "Height and width must be positive integers."
  else if height > width then
    .ok { height := width, width := height }
  else
    .ok { height := height, width := width }

/-- `Resolution.__hash__` hashes the tuple `(height, width)`; the hash input
tuple is modelled directly (equal tuples hash equally in Python). -/
def Resolution.hashInput (r : Resolution) : Int × Int := (r.height, r.width)

/-- `str.replace(" ", "")`: removes every space. -/
def removeSpaces (cs : List Char) : List Char := cs.filter (fun c => c ≠ ' ')

/-- `str.split(sep)` for a one-character separator (empty parts preserved). -/
def splitOnChar (sep : Char) : List Char → List (List Char)
  | [] => [[]]
  | c :: rest =>
    match splitOnChar sep rest with
    | [] => [[c]]
    | g :: gs => if c = sep then [] :: g :: gs else (c :: g) :: gs

/-- `Resolution._is_valid_number_pair`: after removing spaces, a string is a
valid pair when it contains exactly one `x`, or no `x` and exactly one `:`. -/
def Resolution.is_valid_number_pair (number_pair : String) : Bool :=
  if number_pair = "" then false
  else
    let s := removeSpaces number_pair.toList
    if s.contains 'x' then s.count 'x' = 1
    else if s.contains ':' then s.count ':' = 1
    else false

/-- Python `int(str)` on a spaces-free string: an optional sign followed by
one or more decimal digits (the underscore digit-separator rule is not
exercised by this code base and is not modelled). -/
def pyParseInt (s : String) : Except String Int :=
  let core (ds : List Char) : Except String Nat :=
    if ds = [] ∨ ¬ ds.all Char.isDigit then
      .error ("invalid literal for int: " ++ s)
    else
      .ok (ds.foldl (fun acc c => 10 * acc + (c.toNat - 48)) 0)
  match s.toList with
  | '-' :: rest => (core rest).map (fun n => -(n : Int))
  | '+' :: rest => (core rest).map (fun n => (n : Int))
  | ds => (core ds).map (fun n => (n : Int))

/-- The argument to `Resolution.from_number_pair`: a string, or a tuple/list
of Python ints. -/
inductive NumberPairArg where
  | str (s : String)
  | tup (xs : List Int)
deriving DecidableEq, Repr

/-- `Resolution.from_number_pair`: a two-element tuple is splatted into the
constructor; a valid string is split on its separator (`x` preferred over
`:`), each part parsed with `int`, and splatted into the constructor;
anything else raises `ValueError: Invalid number pair`.  (A non-string,
non-2-tuple argument reaching the string branch raises `AttributeError` in
Python; it is reported as an error here as well.) -/
def Resolution.from_number_pair (number_pair : NumberPairArg) : Except String Resolution :=
  match number_pair with
  | .tup xs =>
    match xs with
    | [a, b] => Resolution.init a b
    | _ => .error "AttributeError: replace"
  | .str s =>
    if Resolution.is_valid_number_pair s then
      let cleaned := removeSpaces s.toList
      let separator := if cleaned.contains 'x' then 'x' else ':'
      match (splitOnChar separator cleaned).mapM (fun part => pyParseInt (String.mk part)) with
      | .ok [a, b] => Resolution.init a b
      | .ok _ => .error ("Invalid number pair: " ++ s)
      | .error e => .error e
    else
      .error ("Invalid number pair: " ++ s)

/-- The final path component of a file name (everything after the last `/`). -/
def pathFinalComponent (name : String) : String :=
  String.mk ((splitOnChar '/' name.toList).getLastD [])

/-- Index of the last `.` in a character list, if any (Python `str.rfind`). -/
def rfindDot (cs : List Char) : Option Nat :=
  let r := cs.reverse.indexOf '.'
  if r < cs.length then some (cs.length - 1 - r) else none

/-- `pathlib.Path(name).suffix`: the extension of the final component,
including the dot; empty when the component has no interior dot. -/
def pathSuffix (name : String) : String :=
  let cs := (pathFinalComponent name).toList
  match rfindDot cs with
  | some i => if 0 < i ∧ i < cs.length - 1 then String.mk (cs.drop i) else ""
  | none => ""

/-- `Path(name).suffix.lower()`. -/
def pathSuffixLower (name : String) : String :=
  String.mk ((pathSuffix name).toList.map Char.toLower)

/-- An open CLI file argument (`typer.FileBinaryRead`): the underlying file
name and its full byte content.  Reading is modelled as total (an I/O
failure on `read()` is an external event outside this embedding). -/
structure CliFile where
  name : String
  data : PyBytes
  closed : Bool := false

/-- `read_source_from_arg` (`icon_generation_utils.py`): returns the bytes and
the type (`"svg"` when the file name's lowercased suffix is `.svg`, else
`"raster"`); `(None, "")` when the argument is absent or closed. -/
def read_source_from_arg (file_arg : Option CliFile) : Option PyBytes × String :=
  match file_arg with
  | none => (none, "")
  | some f =>
    if f.closed then (none, "")
    else
      (some f.data, if pathSuffixLower f.name = ".svg" then "svg" else "raster")

/-- The CLI arguments consulted by `get_source_images_from_args` and
`perform_svg_analysis`. -/
structure CliArgs where
  masked_image : Option CliFile := none
  masked_image_monochrome : Option CliFile := none
  darkmode_image : Option CliFile := none
  tinted_image : Option CliFile := none
  tile_rectangle_image : Option CliFile := none
  attempt_svg_analysis : Bool := false

/-- The `source_data` dict of `determine_source_images`: one entry per
category key (`"base"`, `"masked"`, `"monochrome"`, `"dark"`, `"tinted"`,
`"tile_rect"`), each `bytes | None`. -/
structure SourceData where
  base : Option PyBytes := none
  masked : Option PyBytes := none
  monochrome : Option PyBytes := none
  dark : Option PyBytes := none
  tinted : Option PyBytes := none
  tile_rect : Option PyBytes := none

/-- The `source_type` dict of `determine_source_images`: one entry per
category key, each `'svg'`, `'raster'` or `""`. -/
structure SourceType where
  base : String := ""
  masked : String := ""
  monochrome : String := ""
  dark : String := ""
  tinted : String := ""
  tile_rect : String := ""

/-- `dict.get` on `source_data` by string key. -/
def SourceData.get (sd : SourceData) : String → Option PyBytes
  | "base" => sd.base
  | "masked" => sd.masked
  | "monochrome" => sd.monochrome
  | "dark" => sd.dark
  | "tinted" => sd.tinted
  | "tile_rect" => sd.tile_rect
  | _ => none

/-- `dict.get` on `source_type` by string key (`None` for unknown keys,
modelled as the absent value `""`-free `Option`). -/
def SourceType.get (st : SourceType) : String → Option String
  | "base" => some st.base
  | "masked" => some st.masked
  | "monochrome" => some st.monochrome
  | "dark" => some st.dark
  | "tinted" => some st.tinted
  | "tile_rect" => some st.tile_rect
  | _ => none

/-- One update step of `get_source_images_from_args`: the loop body sets
`source_data[category]`/`source_type[category]` only when the read data is
truthy (present and non-empty). -/
def sourceUpdate (arg : Option CliFile) (current : Option PyBytes × String) :
    Option PyBytes × String :=
  match read_source_from_arg arg with
  | (some d, t) => if d ≠ ([] : List Nat) then (some d, t) else current
  | (none, _) => current

/-- `get_source_images_from_args` (`icon_generation_utils.py`): walks the
static `arg_to_category` map (`masked_image → masked`,
`masked_image_monochrome → monochrome`, `darkmode_image → dark`,
`tinted_image → tinted`, `tile_rectangle_image → tile_rect`), storing each
explicitly provided non-empty source. -/
def get_source_images_from_args (cli_args : CliArgs) (source_data : SourceData)
    (source_type : SourceType) : SourceData × SourceType :=
  let m := sourceUpdate cli_args.masked_image (source_data.masked, source_type.masked)
  let mc := sourceUpdate cli_args.masked_image_monochrome
    (source_data.monochrome, source_type.monochrome)
  let d := sourceUpdate cli_args.darkmode_image (source_data.dark, source_type.dark)
  let t := sourceUpdate cli_args.tinted_image (source_data.tinted, source_type.tinted)
  let tr := sourceUpdate cli_args.tile_rectangle_image
    (source_data.tile_rect, source_type.tile_rect)
  ({ source_data with
      masked := m.1, monochrome := mc.1, dark := d.1, tinted := t.1, tile_rect := tr.1 },
   { source_type with
      masked := m.2, monochrome := mc.2, dark := d.2, tinted := t.2, tile_rect := tr.2 })

/-- `determine_source_images` (`icon_generation_utils.py`): seeds the two
dicts with the base icon, extracts explicit CLI sources (Step 1), and
returns.  Step 2 ("Apply fallback logic for missing sources") is an
unimplemented `TODO` in the source, and Step 3 (`perform_svg_analysis`)
only emits diagnostics — its analysis stub always reports
`background_found=False` and the modification logic is `TBD`, so it never
mutates the dicts. -/
def determine_source_images (cli_args : CliArgs) (base_icon_data : PyBytes)
    (base_icon_type : String) : SourceData × SourceType :=
  let source_data : SourceData := { base := some base_icon_data }
  let source_type : SourceType := { base := base_icon_type }
  get_source_images_from_args cli_args source_data source_type

/-- A Pillow image: mode string plus per-pixel channel values.  Only the
modes this code base produces (`RGBA`, `RGB`, `L`) are modelled. -/
structure PILImage where
  mode : String
  width : Int
  height : Int
  pixels : List (List Nat)
deriving DecidableEq, Repr

/-- Channel access with Pillow's channel order (missing channels read 0). -/
def px (p : List Nat) (i : Nat) : Nat := p.getD i 0

/-- Pillow's ITU-R 601-2 luma transform used by `convert("L")`:
`L = R * 299/1000 + G * 587/1000 + B * 114/1000` in integer arithmetic. -/
def lumaITU (p : List Nat) : Nat := (px p 0 * 299 + px p 1 * 587 + px p 2 * 114) / 1000

/-- `Image.convert(target)` for the mode pairs this code base exercises.
Converting to `L` keeps only the luma (any alpha channel is discarded);
converting `L`/`RGB` to `RGBA` fills the alpha channel with 255. -/
def pilConvert (img : PILImage) (target : String) : PILImage :=
  if img.mode = target then img
  else if target = "L" then
    { img with mode := "L", pixels := img.pixels.map (fun p => [lumaITU p]) }
  else if img.mode = "L" ∧ target = "RGBA" then
    { img with mode := "RGBA", pixels := img.pixels.map (fun p => [px p 0, px p 0, px p 0, 255]) }
  else if img.mode = "L" ∧ target = "RGB" then
    { img with mode := "RGB", pixels := img.pixels.map (fun p => [px p 0, px p 0, px p 0]) }
  else if img.mode = "RGB" ∧ target = "RGBA" then
    { img with mode := "RGBA", pixels := img.pixels.map (fun p => [px p 0, px p 1, px p 2, 255]) }
  else if img.mode = "RGBA" ∧ target = "RGB" then
    { img with mode := "RGB", pixels := img.pixels.map (fun p => [px p 0, px p 1, px p 2]) }
  else img

/-- `ImageOps.grayscale` is `image.convert("L")`. -/
def ImageOps_grayscale (img : PILImage) : PILImage := pilConvert img "L"

/-- `desaturate_image` (`image_processing.py`):
`ImageOps.grayscale(image).convert("RGBA")`. -/
def desaturate_image (img : PILImage) : PILImage :=
  pilConvert (ImageOps_grayscale img) "RGBA"

/-- Pillow's alpha-masked paste interpolation for one channel:
the pasted image is blended over the background with the mask value as the
blend coefficient. -/
def pilBlend (fg bg a : Nat) : Nat := (fg * a + bg * (255 - a) + 127) / 255

/-- `_convert_rgba_to_rgb_with_background` (`image_processing.py`) with the
default white background: composites the image over a white RGBA canvas
using its alpha channel as mask, then converts to RGB. -/
def convert_rgba_to_rgb_with_background (image : PILImage) : PILImage :=
  let image := if image.mode ≠ "RGBA" then pilConvert image "RGBA" else image
  let composited := image.pixels.map (fun p =>
    [pilBlend (px p 0) 255 (px p 3), pilBlend (px p 1) 255 (px p 3),
     pilBlend (px p 2) 255 (px p 3), 255])
  pilConvert { image with mode := "RGBA", pixels := composited } "RGB"

/-- `ensure_opaque_background` (`image_processing.py`) with the default
`"white"` background colour. -/
def ensure_opaque_background (image : PILImage) : PILImage :=
  if image.mode = "RGB" then image
  else if image.mode = "RGBA" then convert_rgba_to_rgb_with_background image
  else convert_rgba_to_rgb_with_background (pilConvert image "RGBA")

/-- `ensure_transparent_background` (`image_processing.py`): only ensures the
mode is RGBA. -/
def ensure_transparent_background (image : PILImage) : PILImage :=
  if image.mode ≠ "RGBA" then pilConvert image "RGBA" else image

/-- `apply_post_processing` (`icon_generation_utils.py`): desaturate if
required, then opaque background (which takes precedence) or else
transparent background. -/
def apply_post_processing (img : PILImage) (needs_desat needs_opaque_bg needs_trans : Bool) :
    PILImage :=
  let img := if needs_desat then desaturate_image img else img
  if needs_opaque_bg then ensure_opaque_background img
  else if needs_trans then ensure_transparent_background img
  else img

/-- A web-app-manifest icon entry as built by `generate_manifest_entry`:
the dict keys `src`, `sizes`, `type` (in insertion order) plus the
optional `purpose`. -/
structure ManifestEntry where
  src : String
  sizes : String
  type_ : String
  purpose : Option PurposeValue := none
deriving DecidableEq, Repr

/-- `generate_manifest_entry` (`icon_generation_utils.py`): an entry for every
category except Apple Dark Mode and Apple Touch; the `purpose` key is added
whenever the purpose value differs from the string `"any"` (a tuple always
does), and stores the purpose value verbatim. -/
def generate_manifest_entry (cat_name : String) (relative_path : String)
    (size_fmt : String) (manifest_purp : PurposeValue) : Option ManifestEntry :=
  if cat_name ≠ "Apple Dark Mode" ∧ cat_name ≠ "Apple Touch" then
    some { src := relative_path
           sizes := size_fmt
           type_ := "image/png"
           purpose := if manifest_purp ≠ .one "any" then some manifest_purp else none }
  else none

/-- `generate_html_tag` (`icon_generation_utils.py`). -/
def generate_html_tag (cat_name : String) (size_fmt : String) (relative_path : String)
    (width height : Int) : Option String :=
  if cat_name = "Apple Touch" then
    some ("<link rel=\"apple-touch-icon\" sizes=\"" ++ size_fmt ++ "\" href=\""
      ++ relative_path ++ "\">")
  else if cat_name = "Apple Dark Mode" then
    some ("<link rel=\"apple-touch-icon\" sizes=\"" ++ size_fmt ++ "\" href=\""
      ++ relative_path ++ "\" media=\"(prefers-color-scheme: dark)\">")
  else if List.isPrefixOf "MS Tile".toList cat_name.toList then
    let meta_name := if width = height then "msapplication-square" else "msapplication-wide"
    let meta_size := toString width ++ "x" ++ toString height ++ "logo"
    some ("<meta name=\"" ++ meta_name ++ meta_size ++ "\" content=\"" ++ relative_path ++ "\">")
  else none

/-- Filesystem paths (`pathlib.Path`) as segment lists; `/` appends a
segment and `str()` joins with `/`. -/
abbrev PPath : Type := List String

/-- `str(path)`. -/
def pathToString (p : PPath) : String := String.intercalate "/" p

/-- `get_relative_path` (`icon_generation_utils.py`): `relative_to` the HTML
destination, falling back to the destination directory's parent with a
warning; a `ValueError` escapes if neither is an ancestor. -/
def get_relative_path (output_path html_destination destination_dir_parent : PPath) :
    Except String (PPath × Option String) :=
  if List.isPrefixOf html_destination output_path then
    .ok ((output_path : List String).drop (html_destination : List String).length, none)
  else if List.isPrefixOf destination_dir_parent output_path then
    .ok ((output_path : List String).drop (destination_dir_parent : List String).length,
      some "outside HTML destination")
  else
    .error "ValueError: not in the subpath"

/-- `str.lower().replace(" ", "-")` used for the category slug. -/
def pySlug (s : String) : String :=
  String.mk (s.toList.map (fun ch => if ch = ' ' then '-' else ch.toLower))

/-- `setup_output_paths` (`icon_generation_utils.py`): the output directory
(`base/subdir` when the subdir string is truthy), the destination
directory's parent, and the filename prefix (the category slug is appended
for every category except Apple Touch). -/
def setup_output_paths (base_icon_path : PPath) (subdir : String)
    (html_destination destination_dir : PPath) (icon_name : String) (cat_name : String) :
    PPath × PPath × String :=
  let output_dir : PPath := if subdir ≠ "" then base_icon_path ++ [subdir] else base_icon_path
  let destination_dir_parent : PPath := (destination_dir : List String).dropLast
  let namePre :=
    if cat_name = "Apple Touch" then icon_name
    else icon_name ++ "-" ++ pySlug cat_name
  (output_dir, destination_dir_parent, namePre)

/-- The standard base64 alphabet. -/
def base64Char (n : Nat) : Char :=
  ("ABCDEFGHIJKLMNOPQRSTUVWXYZabcdefghijklmnopqrstuvwxyz0123456789+/".toList).getD n 'A'

/-- `base64.b64encode(...).decode("utf-8")`. -/
def base64Encode : List Nat → String
  | [] => ""
  | [b1] =>
    String.mk [base64Char (b1 / 4), base64Char (b1 % 4 * 16)] ++ "=="
  | [b1, b2] =>
    String.mk [base64Char (b1 / 4), base64Char (b1 % 4 * 16 + b2 / 16),
      base64Char (b2 % 16 * 4)] ++ "="
  | b1 :: b2 :: b3 :: rest =>
    String.mk [base64Char (b1 / 4), base64Char (b1 % 4 * 16 + b2 / 16),
      base64Char (b2 % 16 * 4 + b3 / 64), base64Char (b3 % 64)] ++ base64Encode rest

/-- A parsed lxml element: its (namespace-qualified) tag, attributes and
children, carried opaquely through the embedding. -/
inductive XmlNode where
  | node (tag : String) (attrs : List (String × String)) (children : List XmlNode)

/-- `element.tag`. -/
def XmlNode.tag : XmlNode → String
  | .node t _ _ => t

/-- The element children iterated by `for child in content_root`. -/
def XmlNode.children : XmlNode → List XmlNode
  | .node _ _ cs => cs

/-- What `create_macos_clipped_svg` places inside the clipped `<g>` element:
an embedded base64 PNG `<image>`, the children of a parsed `<svg>` root,
a non-`<svg>` parsed root appended whole, or the red placeholder `<rect>`
added when parsing the input SVG fails. -/
inductive ClipGroupContent where
  | rasterImage (pngBase64 : String) (size : Int)
  | svgChildren (children : List XmlNode)
  | svgRootWrapped (root : XmlNode)
  | placeholder (size : Int)
  | empty

/-- The SVG document `create_macos_clipped_svg` assembles (before lxml
serialization): root size/viewBox, the clip-path rect geometry (exact
rationals: the three float ratios 0.09765625, 0.8046875 and 0.1796875 are
the dyadic rationals 100/1024, 824/1024 and 184/1024), and the group
content. -/
structure SvgDoc where
  size : Int
  offset : ℚ
  rect_size : ℚ
  radius : ℚ
  clip_path_id : String
  content : ClipGroupContent

/-- External collaborators of the transform engine, modelled as explicit
functions: cairosvg rasterization (of raw SVG bytes and of the assembled
clip document), Pillow decoding / LANCZOS resizing / PNG encoding, UTF-8
decoding, and lxml parsing with the recovering parser (`none` models a
parse failure). -/
structure ExtOps where
  svg2png : PyBytes → Int → Int → Except String PyBytes
  svgDoc2png : SvgDoc → Int → Int → Except String PyBytes
  openImage : PyBytes → Except String PILImage
  resize : PILImage → Int → Int → PILImage
  encodePng : PILImage → PyBytes
  decodeUtf8 : PyBytes → Except String String
  parseXml : String → Option XmlNode

/-- `create_macos_clipped_svg` (`image_processing.py`): raises `ValueError`
when no content is provided (Python truthiness: `None` or an empty string
count as not provided) or when the target is not square; otherwise builds
the clip-path SVG.  A raster image takes priority and is embedded as a
base64 PNG; otherwise the SVG content is parsed — an `<svg>` root
contributes its children, any other root is appended whole, and a parse
failure degrades to the red placeholder rect. -/
def create_macos_clipped_svg (ops : ExtOps) (content_svg_data : Option String)
    (content_raster_image : Option PILImage) (target_width target_height : Int) :
    Except String SvgDoc :=
  if (content_svg_data = none ∨ content_svg_data = some "") ∧ content_raster_image = none then
    .error "Either SVG data or a raster image must be provided."
  else if target_width ≠ target_height then
    .error "Target width and height must be equal for macOS icons."
  else
    let size := target_width
    let content :=
      match content_raster_image with
      | some img => ClipGroupContent.rasterImage (base64Encode (ops.encodePng img)) size
      | none =>
        match content_svg_data with
        | some s =>
          if s ≠ "" then
            match ops.parseXml s with
            | none => ClipGroupContent.placeholder size
            | some content_root =>
              if content_root.tag = "\x7bhttp://www.w3.org/2000/svg\x7dsvg" then
                ClipGroupContent.svgChildren content_root.children
              else
                ClipGroupContent.svgRootWrapped content_root
          else ClipGroupContent.empty
        | none => ClipGroupContent.empty
    .ok { size := size
          offset := (size : ℚ) * (100 / 1024)
          rect_size := (size : ℚ) * (824 / 1024)
          radius := (size : ℚ) * (184 / 1024)
          clip_path_id := "macosIconMask"
          content := content }

/-- `process_macos_clipped_icon` (`icon_generation_utils.py`).  For an SVG
source the clip document is built and rasterized; any failure yields
`none`.  For a raster source the code passes the `io.BytesIO` buffer
returned by `load_file` where `create_macos_clipped_svg` expects a PIL
image, so the `save` call inside the raster-embedding branch raises
`AttributeError`; the surrounding `except` catches it, and the branch
always yields `none`. -/
def process_macos_clipped_icon (ops : ExtOps) (source_data : PyBytes)
    (source_type : Option String) (width height : Int) : Option PILImage :=
  if source_type = some "svg" then
    match ops.decodeUtf8 source_data with
    | .error _ => none
    | .ok svg_data =>
      match create_macos_clipped_svg ops (some svg_data) none width height with
      | .error _ => none
      | .ok temp_svg =>
        match ops.svgDoc2png temp_svg width height with
        | .error _ => none
        | .ok png_bytes => (ops.openImage png_bytes).toOption
  else
    none

/-- `process_svg_icon` (`icon_generation_utils.py`). -/
def process_svg_icon (ops : ExtOps) (source_data : PyBytes) (width height : Int) :
    Option PILImage :=
  match ops.svg2png source_data width height with
  | .error _ => none
  | .ok png_bytes => (ops.openImage png_bytes).toOption

/-- `process_raster_icon` (`icon_generation_utils.py`): decode and resize
only when the pixel dimensions differ from the target. -/
def process_raster_icon (ops : ExtOps) (source_data : PyBytes) (width height : Int) :
    Option PILImage :=
  match ops.openImage source_data with
  | .error _ => none
  | .ok img =>
    if (img.width, img.height) ≠ (width, height) then some (ops.resize img width height)
    else some img

/-- A PNG file written by `processed_img.save(output_path, "PNG")`. -/
structure SavedFile where
  path : PPath
  png : PyBytes

/-- `process_single_icon` (`icon_generation_utils.py`): dispatches on
`(needs_clip, source type)`, post-processes, saves, computes the relative
path and emits the HTML tag and manifest entry.  File writes are made
explicit in the result (the save happens before metadata computation, so a
metadata failure still leaves the saved file behind). -/
def process_single_icon (ops : ExtOps) (width height : Int) (output_dir : PPath)
    (namePre : String) (current_source_data : PyBytes) (current_source_type : Option String)
    (html_destination destination_dir_parent : PPath) (cat_name : String)
    (manifest_purp : PurposeValue)
    (needs_clip needs_desat needs_opaque_bg needs_trans : Bool) :
    Option String × Option ManifestEntry × List SavedFile :=
  let size_formatted := toString width ++ "x" ++ toString height
  let base_filename := namePre ++ "-" ++ size_formatted ++ ".png"
  let output_path : PPath := output_dir ++ [base_filename]
  let processed_img :=
    if needs_clip then
      process_macos_clipped_icon ops current_source_data current_source_type width height
    else if current_source_type = some "svg" then
      process_svg_icon ops current_source_data width height
    else
      process_raster_icon ops current_source_data width height
  match processed_img with
  | none => (none, none, [])
  | some img =>
    let img := apply_post_processing img needs_desat needs_opaque_bg needs_trans
    let saved : SavedFile := { path := output_path, png := ops.encodePng img }
    match get_relative_path output_path html_destination destination_dir_parent with
    | .error _ => (none, none, [saved])
    | .ok (relative_path, _warning) =>
      let size_fmt := toString width ++ "x" ++ toString height
      (generate_html_tag cat_name size_fmt (pathToString relative_path) width height,
       generate_manifest_entry cat_name (pathToString relative_path) size_fmt manifest_purp,
       [saved])

/-- One item of a size collection in the data model: a bare int (square), a
`(w, h)` tuple, or a `Resolution`. -/
inductive SizeItem where
  | int (n : Int)
  | pair (w h : Int)
  | res (r : Resolution)

/-- The conversion the `get_target_sizes` loop applies to each item. -/
def sizeItemToTuple : SizeItem → Int × Int
  | .int n => (n, n)
  | .pair w h => (w, h)
  | .res r => (r.width, r.height)

/-- The loaded PWA data model, as the map from dotted attribute paths (the
`IconSizeGroup` values) to size collections; `none` models a missing
attribute (`AttributeError`) or a non-sequence value (`TypeError`), both
of which `get_target_sizes` catches. -/
def MadIconModel : Type := String → Option (List SizeItem)

/-- `get_target_sizes` (`icon_generation_utils.py`): navigate the model
attribute, skip (returning `None`) when the lookup fails or the collection
is empty, else convert every item to a `(width, height)` tuple. -/
def get_target_sizes (pwa_model : MadIconModel) (model_attr : String) :
    Option (List (Int × Int)) :=
  match pwa_model model_attr with
  | none => none
  | some items =>
    if items.isEmpty then none
    else
      let target_sizes := items.map sizeItemToTuple
      if target_sizes.isEmpty then none else some target_sizes

/-- The `category_config` dict consumed by `process_icon_category` /
`extract_category_params`: keys `name`, `source_key`, `subdir`,
`model_attr`, the four processing booleans, and `manifest_purp`. -/
structure CategoryConfig where
  name : String
  source_key : String
  subdir : String
  model_attr : String
  needs_desat : Bool
  needs_opaque_bg : Bool
  needs_trans : Bool
  needs_clip : Bool
  manifest_purp : PurposeValue

/-- The `output_paths` dict entries `process_icon_category` indexes
(`base_icon_path`, `html_dest_path`, `destination_dir`), always populated
by `prepare_output_directories`. -/
structure OutputPaths where
  destination_dir : PPath
  html_dest_path : PPath
  base_icon_path : PPath

/-- The `cli_config` keys `process_icon_category` consults. -/
structure IconCliConfig where
  icon_name : Option String := none

/-- `process_icon_category` (`icon_generation_utils.py`): returns the empty
result when the resolved source bytes are absent (or empty — Python
truthiness) or when `get_target_sizes` yields nothing; otherwise processes
every target size, collecting tags, manifest entries and file writes
(failures at a single size contribute nothing and processing continues). -/
def process_icon_category (ops : ExtOps) (category_config : CategoryConfig)
    (pwa_model : MadIconModel) (source_data : SourceData) (source_type : SourceType)
    (output_paths : OutputPaths) (cli_config : IconCliConfig) :
    List String × List ManifestEntry × List SavedFile :=
  let current_source_data := source_data.get category_config.source_key
  let current_source_type := source_type.get category_config.source_key
  match current_source_data with
  | none => ([], [], [])
  | some d =>
    if d = ([] : List Nat) then ([], [], [])
    else
      match get_target_sizes pwa_model category_config.model_attr with
      | none => ([], [], [])
      | some target_sizes =>
        let icon_name := cli_config.icon_name.getD "icon"
        let paths := setup_output_paths output_paths.base_icon_path category_config.subdir
          output_paths.html_dest_path output_paths.destination_dir icon_name
          category_config.name
        let results := target_sizes.map (fun wh =>
          process_single_icon ops wh.1 wh.2 paths.1 paths.2.2 d current_source_type
            output_paths.html_dest_path paths.2.1 category_config.name
            category_config.manifest_purp category_config.needs_clip
            category_config.needs_desat category_config.needs_opaque_bg
            category_config.needs_trans)
        (results.filterMap (·.1), results.filterMap (·.2.1), (results.map (·.2.2)).flatten)

/-- The configuration dict consumed by `prepare_output_directories`. -/
structure PrepDirConfig where
  destination_dir : PPath
  icon_dir_name : String
  html_destination : PPath
  generate_masked_icons : Bool := false
  generate_darkmode_icons : Bool := false
  generate_tinted_icons : Bool := false
  generate_macos_icons : Bool := false
  generate_ms_tiles : Bool := false
  generate_html : Bool := false
  generate_manifest : Bool := false

/-- `prepare_output_directories` (`icon_generation_utils.py`), directory
computation only (the `make_dirs` call is external I/O): returns the list
of directories to create and the named output paths.  With masked icons
enabled this creates `base/masked` and `base/masked/monochrome`. -/
def prepare_output_directories (config : PrepDirConfig) :
    List PPath × List (String × PPath) :=
  let base_icon_path : PPath := config.destination_dir ++ [config.icon_dir_name]
  let dirs0 : List PPath := [config.destination_dir, base_icon_path]
  let out0 : List (String × PPath) :=
    [("destination_dir", config.destination_dir), ("html_dest_path", config.html_destination),
     ("base_icon_path", base_icon_path)]
  let (dirs1, out1) :=
    if config.generate_masked_icons then
      let masked_path : PPath := base_icon_path ++ ["masked"]
      let monochrome_path : PPath := masked_path ++ ["monochrome"]
      (dirs0 ++ [masked_path, monochrome_path],
       out0 ++ [("masked_path", masked_path), ("monochrome_path", monochrome_path)])
    else (dirs0, out0)
  let (dirs2, out2) :=
    if config.generate_darkmode_icons then
      (dirs1 ++ [base_icon_path ++ ["darkmode"]],
       out1 ++ [("darkmode_path", base_icon_path ++ ["darkmode"])])
    else (dirs1, out1)
  let (dirs3, out3) :=
    if config.generate_tinted_icons then
      (dirs2 ++ [base_icon_path ++ ["tinted"]],
       out2 ++ [("tinted_path", base_icon_path ++ ["tinted"])])
    else (dirs2, out2)
  let (dirs4, out4) :=
    if config.generate_macos_icons then
      (dirs3 ++ [base_icon_path ++ ["macos"]],
       out3 ++ [("macos_path", base_icon_path ++ ["macos"])])
    else (dirs3, out3)
  let (dirs5, out5) :=
    if config.generate_ms_tiles then
      (dirs4 ++ [base_icon_path ++ ["mstile"]],
       out4 ++ [("mstile_path", base_icon_path ++ ["mstile"])])
    else (dirs4, out4)
  let dirs6 :=
    if (config.generate_html ∨ config.generate_manifest)
        ∧ ¬ dirs5.contains config.html_destination then
      dirs5 ++ [config.html_destination]
    else dirs5
  (dirs6, out5)

/-- Lowercase hex digit. -/
def hexDigit (n : Nat) : Char := ("0123456789abcdef".toList).getD n '0'

/-- Four-digit lowercase hex rendering used by JSON `\uXXXX` escapes. -/
def hex4 (n : Nat) : String :=
  String.mk [hexDigit (n / 4096 % 16), hexDigit (n / 256 % 16),
    hexDigit (n / 16 % 16), hexDigit (n % 16)]

/-- Python `json.dump` default (`ensure_ascii=True`) escaping of one
character (characters beyond the Basic Multilingual Plane, which need
surrogate pairs and never occur in this data, are not modelled). -/
def jsonEscapeChar (c : Char) : String :=
  if c = '"' then "\\\""
  else if c = '\\' then "\\\\"
  else if c = '\n' then "\\n"
  else if c = '\r' then "\\r"
  else if c = '\t' then "\\t"
  else if c.toNat = 8 then "\\b"
  else if c.toNat = 12 then "\\f"
  else if c.toNat < 32 ∨ c.toNat > 126 then "\\u" ++ hex4 c.toNat
  else String.mk [c]

/-- JSON string literal. -/
def jsonStringLit (s : String) : String :=
  "\"" ++ String.join (s.toList.map jsonEscapeChar) ++ "\""

/-- `json.dump` rendering of a purpose value at manifest-entry field depth
with `indent=2`: a `ManifestPurpose` string serializes as a string, the
tuple serializes as a two-element JSON array. -/
def purposeJson : PurposeValue → String
  | .one p => jsonStringLit p
  | .pair a b =>
    "[\n      " ++ jsonStringLit a ++ ",\n      " ++ jsonStringLit b ++ "\n    ]"

/-- `json.dump` rendering of one manifest entry dict with `indent=2` at array
depth (keys in insertion order: `src`, `sizes`, `type`, then `purpose` when
present). -/
def manifestEntryJson (e : ManifestEntry) : String :=
  let fields :=
    [("src", jsonStringLit e.src), ("sizes", jsonStringLit e.sizes),
     ("type", jsonStringLit e.type_)]
    ++ (match e.purpose with
        | some p => [("purpose", purposeJson p)]
        | none => [])
  "\x7b\n"
    ++ String.intercalate ",\n" (fields.map (fun kv => "    " ++ jsonStringLit kv.1 ++ ": " ++ kv.2))
    ++ "\n  \x7d"

/-- `json.dump(manifest_icons, f, indent=2)` for a non-empty entry list. -/
def manifestJson (entries : List ManifestEntry) : String :=
  "[\n" ++ String.intercalate ",\n" (entries.map (fun e => "  " ++ manifestEntryJson e)) ++ "\n]"

/-- The `cli_config` keys `generate_output_files` consults. -/
structure OutCliConfig where
  generate_html : Bool := false
  generate_manifest : Bool := false
  html_file_name : Option String := none

/-- `generate_output_files` (`icon_generation_utils.py`): when HTML generation
is enabled and tags exist, sorts the tags (`list.sort()`: ascending
lexicographic), indents each by two spaces, joins with newlines, wraps in
the fixed banner comments and writes to `html_destination/html_file_name`;
when manifest generation is enabled and entries exist, sorts them by their
`src` key and writes the `indent=2` JSON array to
`html_destination/manifest-icons-fragment.json`.  Each result component is
the `(path, written text)` pair of the corresponding write (`none` when
that write is skipped); write I/O errors are external events. -/
def generate_output_files (html_tags : List String) (manifest_icons : List ManifestEntry)
    (html_dest_path : PPath) (cli_config : OutCliConfig) :
    Option (PPath × String) × Option (PPath × String) :=
  let html_file_name := cli_config.html_file_name.getD "paste-content-in-site-head-tags.html"
  let htmlOut :=
    if cli_config.generate_html ∧ html_tags ≠ [] then
      let sorted := html_tags.mergeSort
      let html_content := String.intercalate "\n" (sorted.map (fun tag => "  " ++ tag))
      some ((html_dest_path ++ [html_file_name] : PPath),
        "<!-- PWA Icons Generated by mad-icon -->\n" ++ html_content ++ "\n<!-- End PWA Icons -->")
    else none
  let manifestOut :=
    if cli_config.generate_manifest ∧ manifest_icons ≠ [] then
      let sorted := manifest_icons.mergeSort (fun a b => a.src ≤ b.src)
      some ((html_dest_path ++ ["manifest-icons-fragment.json"] : PPath), manifestJson sorted)
    else none
  (htmlOut, manifestOut)

/-- A concrete instantiation of the external collaborators, used to witness
theorems that quantify over `ExtOps`: every external call fails (or is
inert), which the pipeline tolerates by construction. -/
def trivialOps : ExtOps :=
  { svg2png := fun _ _ _ => .error "render failed"
    svgDoc2png := fun _ _ _ => .error "render failed"
    openImage := fun _ => .error "decode failed"
    resize := fun img _ _ => img
    encodePng := fun _ => []
    decodeUtf8 := fun _ => .error "decode failed"
    parseXml := fun _ => none }

/-- C1: the claim states that `determine_source_images` resolves the
MONOCHROME key through the fallback chain — to BASE's bytes when only BASE
is supplied, and to an explicit MASKED image's bytes when one is given.
In the code the fallback step is an unimplemented `TODO`, so in both runs
the monochrome entry stays `None` (while the base, and the explicitly
supplied masked image, are stored): MONOCHROME never resolves to anything
unless supplied explicitly. -/
theorem C1_monochrome_fallback_unimplemented :
    ((determine_source_images {} [0, 1, 2] "raster").1.monochrome = none
      ∧ (determine_source_images {} [0, 1, 2] "raster").1.base = some [0, 1, 2]
      ∧ (determine_source_images {} [0, 1, 2] "raster").2.base = "raster")
    ∧ ((determine_source_images { masked_image := some { name := "m.png", data := [9, 9] } }
          [0, 1, 2] "raster").1.masked = some [9, 9]
      ∧ (determine_source_images { masked_image := some { name := "m.png", data := [9, 9] } }
          [0, 1, 2] "raster").1.monochrome = none) :=
  ⟨⟨rfl, rfl, rfl⟩, rfl, rfl⟩

/-- C2 counterexample: the claim states that BASE is terminal (has no
fallback).  In the code `fallback_strategy` is total and its wildcard case
sends BASE to MASKED; since MASKED falls back to BASE, the chain starting
at BASE revisits BASE after two hops. -/
theorem C2_base_not_terminal :
    IconSourceKey.fallback_strategy .BASE = .MASKED
    ∧ IconSourceKey.MASKED ≠ IconSourceKey.BASE
    ∧ IconSourceKey.fallback_strategy (IconSourceKey.fallback_strategy .BASE) = .BASE := by
  decide

/-- C2 amended: the fallback function maps MASKED to BASE, MONOCHROME to
MASKED, DARK to BASE, TINTED to DARK and TILE_RECTANGLE to BASE as
claimed, but BASE is not terminal: the wildcard case maps it to MASKED
(a BASE–MASKED 2-cycle).  Every chain started from a non-BASE key still
reaches BASE in at most two hops without revisiting a key. -/
theorem C2_fallback_table_amended :
    IconSourceKey.fallback_strategy .MASKED = .BASE
    ∧ IconSourceKey.fallback_strategy .MONOCHROME = .MASKED
    ∧ IconSourceKey.fallback_strategy .DARK = .BASE
    ∧ IconSourceKey.fallback_strategy .TINTED = .DARK
    ∧ IconSourceKey.fallback_strategy .TILE_RECTANGLE = .BASE
    ∧ IconSourceKey.fallback_strategy .BASE = .MASKED
    ∧ ([IconSourceKey.MASKED, .BASE] : List IconSourceKey).Nodup
    ∧ ([IconSourceKey.MONOCHROME, .MASKED, .BASE] : List IconSourceKey).Nodup
    ∧ ([IconSourceKey.DARK, .BASE] : List IconSourceKey).Nodup
    ∧ ([IconSourceKey.TINTED, .DARK, .BASE] : List IconSourceKey).Nodup
    ∧ ([IconSourceKey.TILE_RECTANGLE, .BASE] : List IconSourceKey).Nodup := by
  decide

/-- C3: the claim reproduces the spec's compatibility-table row for the
monochrome flag: catalog group `masked_icons`, output subdirectory
`masked/monochrome`.  The registry instead returns subdir
`"masked-monochrome"` and size group `APPLE_TOUCH` (`apple.icon_sizes`),
contradicting the code's own `prepare_output_directories`, which creates
(and names) `base/masked/monochrome` for monochrome output and never
creates a `masked-monochrome` directory; the remaining monochrome fields
(source key, processing requirements, purpose pair) match the table. -/
theorem C3_monochrome_registry_divergence :
    (get_flag_config .MONOCHROME).subdir = "masked-monochrome"
    ∧ "masked-monochrome" ≠ "masked/monochrome"
    ∧ (get_flag_config .MONOCHROME).model_attr = some .APPLE_TOUCH
    ∧ IconSizeGroup.value .APPLE_TOUCH = "apple.icon_sizes"
    ∧ IconSizeGroup.APPLE_TOUCH ≠ IconSizeGroup.MASKED
    ∧ (get_flag_config .MONOCHROME).source_key = some .MONOCHROME
    ∧ (get_flag_config .MONOCHROME).needs_desat = some true
    ∧ (get_flag_config .MONOCHROME).needs_opaque_bg = some true
    ∧ (get_flag_config .MONOCHROME).needs_trans = some false
    ∧ (get_flag_config .MONOCHROME).needs_clip = some false
    ∧ (get_flag_config .MONOCHROME).purpose = some (.pair "maskable" "monochrome")
    ∧ (["dest", "icons", "masked", "monochrome"] : PPath)
        ∈ (prepare_output_directories
            { destination_dir := ["dest"], icon_dir_name := "icons",
              html_destination := ["html"], generate_masked_icons := true }).1
    ∧ ¬ (["dest", "icons", "masked-monochrome"] : PPath)
        ∈ (prepare_output_directories
            { destination_dir := ["dest"], icon_dir_name := "icons",
              html_destination := ["html"], generate_masked_icons := true }).1 := by
  decide

/-- C5: the claim (like the code's own `# Keep alpha channel` comment) states
that desaturation preserves the alpha channel.  `desaturate_image` is
`ImageOps.grayscale(image).convert("RGBA")`: the grayscale conversion to
mode `L` discards the alpha channel and the reconversion to RGBA fills it
with 255, so a fully transparent pixel (alpha 0) comes out fully opaque
(alpha 255). -/
theorem C5_desaturate_resets_alpha :
    (desaturate_image { mode := "RGBA", width := 1, height := 1, pixels := [[10, 20, 30, 0]] })
      = { mode := "RGBA", width := 1, height := 1, pixels := [[18, 18, 18, 255]] }
    ∧ px ((desaturate_image
          { mode := "RGBA", width := 1, height := 1, pixels := [[10, 20, 30, 0]] }).pixels.getD 0 [])
        3 = 255
    ∧ (255 : Nat) ≠ 0 := by
  decide

/-- C4 counterexample: the claim states that for a pair-valued purpose
(Monochrome) the emitted purpose is a single space-separated string with
both values.  `generate_manifest_entry` stores the purpose value verbatim,
so the entry carries the pair itself (serialized by `json.dump` as a
two-element array), not the joined string `"maskable monochrome"`. -/
theorem C4_pair_purpose_not_joined :
    generate_manifest_entry "Android Monochrome" "masked-monochrome/icon-48x48.png" "48x48"
        (.pair "maskable" "monochrome")
      = some { src := "masked-monochrome/icon-48x48.png", sizes := "48x48",
               type_ := "image/png", purpose := some (.pair "maskable" "monochrome") }
    ∧ (generate_manifest_entry "Android Monochrome" "masked-monochrome/icon-48x48.png" "48x48"
          (.pair "maskable" "monochrome")).bind ManifestEntry.purpose
        ≠ some (.one "maskable monochrome") := by
  decide

/-- C4 amended: `generate_manifest_entry` emits an entry
`{src, sizes, type: "image/png", purpose?}` exactly for the categories
other than Apple Touch and Apple Dark Mode, and omits `purpose` iff the
purpose value is the string `"any"`; but a pair-valued purpose (Monochrome)
is emitted verbatim as the pair (a two-element array under `json.dump`),
not joined into one space-separated string. -/
theorem C4_manifest_entry_amended (cat path fmt : String) (purp : PurposeValue) :
    (generate_manifest_entry cat path fmt purp = none
      ↔ (cat = "Apple Dark Mode" ∨ cat = "Apple Touch"))
    ∧ (∀ e, generate_manifest_entry cat path fmt purp = some e →
        e.src = path ∧ e.sizes = fmt ∧ e.type_ = "image/png"
        ∧ (e.purpose = none ↔ purp = .one "any")
        ∧ (∀ a b, purp = .pair a b → e.purpose = some (.pair a b))) := by
  unfold generate_manifest_entry
  by_cases hc : cat ≠ "Apple Dark Mode" ∧ cat ≠ "Apple Touch"
  · rw [if_pos hc]
    constructor
    · simp [hc.1, hc.2]
    · intro e he
      cases he
      refine ⟨rfl, rfl, rfl, ?_, ?_⟩
      · by_cases hp : purp = PurposeValue.one "any" <;> simp [hp]
      · intro a b hab
        subst hab
        simp
  · rw [if_neg hc]
    push_neg at hc
    constructor
    · by_cases h1 : cat = "Apple Dark Mode"
      · simp [h1]
      · simp [h1, hc h1]
    · intro e he
      cases he

/-- Witness for `C4_manifest_entry_amended` at concrete inputs: Apple Touch
yields no entry, and the monochrome pair purpose is stored verbatim. -/
theorem C4_manifest_entry_amended_witness :
    generate_manifest_entry "Apple Touch" "p" "1x1" (.one "any") = none
    ∧ ({ src := "p", sizes := "48x48", type_ := "image/png",
         purpose := some (.pair "maskable" "monochrome") } : ManifestEntry).purpose
        = some (.pair "maskable" "monochrome") :=
  ⟨(C4_manifest_entry_amended "Apple Touch" "p" "1x1" (.one "any")).1.mpr (Or.inr rfl),
   ((C4_manifest_entry_amended "Android Monochrome" "p" "48x48"
        (.pair "maskable" "monochrome")).2
      { src := "p", sizes := "48x48", type_ := "image/png",
        purpose := some (.pair "maskable" "monochrome") } rfl).2.2.2.2
    "maskable" "monochrome" rfl⟩

/-- C6: `process_icon_category` returns the empty pair (and writes no file)
when the category's size collection in the model is empty or the resolved
source bytes for the category's source key are absent, without raising. -/
theorem C6_empty_sizes_or_missing_source_skips (ops : ExtOps) (cfg : CategoryConfig)
    (model : MadIconModel) (sd : SourceData) (st : SourceType) (paths : OutputPaths)
    (cli : IconCliConfig)
    (h : model cfg.model_attr = some [] ∨ sd.get cfg.source_key = none) :
    process_icon_category ops cfg model sd st paths cli = ([], [], []) := by
  unfold process_icon_category
  rcases h with h | h
  · have hgts : get_target_sizes model cfg.model_attr = none := by
      unfold get_target_sizes
      rw [h]
      simp
    cases hsd : sd.get cfg.source_key with
    | none => simp [hsd]
    | some d =>
      by_cases hd : d = ([] : List Nat)
      · simp [hsd, hd]
      · simp [hsd, hd, hgts]
  · simp [h]

/-- Witness for `C6_empty_sizes_or_missing_source_skips`: a catalog whose
masked collection is empty makes the Masked category processor return
`([], [], [])` even though its source bytes are present. -/
theorem C6_empty_sizes_or_missing_source_skips_witness :
    process_icon_category trivialOps
      { name := "Android Masked", source_key := "masked", subdir := "masked",
        model_attr := "android.masked_icon_sizes", needs_desat := false,
        needs_opaque_bg := true, needs_trans := false, needs_clip := false,
        manifest_purp := .one "maskable" }
      (fun _ => some []) { base := some [1], masked := some [2] } {}
      { destination_dir := ["d"], html_dest_path := ["h"], base_icon_path := ["d", "i"] }
      {} = ([], [], []) :=
  C6_empty_sizes_or_missing_source_skips trivialOps _ _ _ _ _ _ (Or.inl rfl)

/-- C7: for positive `w ≠ h`, constructing a `Resolution` from `(w, h)` and
from `(h, w)` yields the identical canonical value with
`width = max w h` and `height = min w h`, and the two constructions have
equal hash inputs (the `(height, width)` tuple). -/
theorem C7_resolution_canonicalization (w h : Int) (hw : 0 < w) (hh : 0 < h) (hne : w ≠ h) :
    Resolution.init w h = Resolution.init h w
    ∧ Resolution.init w h = .ok { height := min w h, width := max w h }
    ∧ ∀ r r', Resolution.init w h = .ok r → Resolution.init h w = .ok r' →
        r.hashInput = r'.hashInput := by
  unfold Resolution.init
  rw [if_neg (by omega : ¬(w ≤ 0 ∨ h ≤ 0)), if_neg (by omega : ¬(h ≤ 0 ∨ w ≤ 0))]
  rcases lt_or_gt_of_ne hne with hlt | hgt
  · rw [if_neg (by omega : ¬ w > h), if_pos (by omega : h > w),
      min_eq_left (le_of_lt hlt), max_eq_right (le_of_lt hlt)]
    exact ⟨rfl, rfl, fun r r' hr hr' => by cases hr; cases hr'; rfl⟩
  · rw [if_pos (by omega : w > h), if_neg (by omega : ¬ h > w),
      min_eq_right (le_of_lt hgt), max_eq_left (le_of_lt hgt)]
    exact ⟨rfl, rfl, fun r r' hr hr' => by cases hr; cases hr'; rfl⟩

/-- Witness for `C7_resolution_canonicalization` at `(3, 5)`. -/
theorem C7_resolution_canonicalization_witness :
    0 < (3 : Int) ∧ 0 < (5 : Int) ∧ (3 : Int) ≠ 5
    ∧ Resolution.init 3 5 = Resolution.init 5 3
    ∧ Resolution.init 3 5 = .ok { height := min (3 : Int) 5, width := max (3 : Int) 5 } :=
  ⟨by decide, by decide, by decide,
   (C7_resolution_canonicalization 3 5 (by decide) (by decide) (by decide)).1,
   (C7_resolution_canonicalization 3 5 (by decide) (by decide) (by decide)).2.1⟩

/-- C8: `from_number_pair` parses `"1024x768"` to the same value as
`Resolution(768, 1024)`, succeeds on `"4:3"` with dimensions 4 and 3,
fails on `"0x5"` with the dimension error; a two-element tuple of positive
ints succeeds canonically, non-positive parsed ints give the dimension
error, and any string matching neither pattern fails. -/
theorem C8_from_number_pair_contract :
    (Resolution.from_number_pair (.str "1024x768") = Resolution.init 768 1024
      ∧ Resolution.from_number_pair (.str "1024x768") = .ok { height := 768, width := 1024 })
    ∧ Resolution.from_number_pair (.str "4:3") = .ok { height := 3, width := 4 }
    ∧ Resolution.from_number_pair (.str "0x5")
        = .error "Height and width must be positive integers."
    ∧ (∀ w h : Int, 0 < w → 0 < h →
        Resolution.from_number_pair (.tup [w, h]) = .ok { height := min w h, width := max w h })
    ∧ (∀ w h : Int, w ≤ 0 ∨ h ≤ 0 →
        Resolution.from_number_pair (.tup [w, h])
          = .error "Height and width must be positive integers.")
    ∧ (∀ s, Resolution.is_valid_number_pair s = false →
        Resolution.from_number_pair (.str s) = .error ("Invalid number pair: " ++ s)) := by
  refine ⟨⟨rfl, rfl⟩, rfl, rfl, ?_, ?_, ?_⟩
  · intro w h hw hh
    show Resolution.init w h = _
    unfold Resolution.init
    rw [if_neg (by omega : ¬(w ≤ 0 ∨ h ≤ 0))]
    by_cases hgt : w > h
    · rw [if_pos hgt, min_eq_right (le_of_lt hgt), max_eq_left (le_of_lt hgt)]
    · rw [if_neg hgt, min_eq_left (by omega : w ≤ h), max_eq_right (by omega : w ≤ h)]
  · intro w h hle
    show Resolution.init w h = _
    unfold Resolution.init
    rw [if_pos hle]
  · intro s hs
    unfold Resolution.from_number_pair
    simp [hs]

/-- Witness for `C8_from_number_pair_contract` at the tuple `(3, 5)` and at
the invalid string `"abc"`. -/
theorem C8_from_number_pair_contract_witness :
    0 < (3 : Int)
    ∧ Resolution.from_number_pair (.tup [3, 5])
        = .ok { height := min (3 : Int) 5, width := max (3 : Int) 5 }
    ∧ Resolution.from_number_pair (.str "abc") = .error ("Invalid number pair: " ++ "abc") :=
  ⟨by decide,
   C8_from_number_pair_contract.2.2.2.1 3 5 (by decide) (by decide),
   C8_from_number_pair_contract.2.2.2.2.2 "abc" (by decide)⟩

/-- C9: when HTML generation is enabled and tags exist, the written snippet is
a lexicographically sorted permutation of the tags, each indented two
spaces, joined with newlines and wrapped in the fixed banner comments,
at `html_destination/html_file_name`; when manifest generation is enabled
and entries exist, the written fragment at
`html_destination/manifest-icons-fragment.json` is the entries sorted
ascending by `src`, serialized as the `indent=2` JSON array. -/
theorem C9_output_files_sorted (tags : List String) (icons : List ManifestEntry)
    (hd : PPath) (cfg : OutCliConfig) :
    (cfg.generate_html = true → tags ≠ [] →
      ∃ ts, List.Perm ts tags ∧ List.Sorted (· ≤ ·) ts ∧
        (generate_output_files tags icons hd cfg).1
          = some ((hd ++ [cfg.html_file_name.getD "paste-content-in-site-head-tags.html"] :
                PPath),
              "<!-- PWA Icons Generated by mad-icon -->\n"
              ++ String.intercalate "\n" (ts.map (fun tag => "  " ++ tag))
              ++ "\n<!-- End PWA Icons -->"))
    ∧ (cfg.generate_manifest = true → icons ≠ [] →
      ∃ es, List.Perm es icons ∧ List.Sorted (fun a b => a.src ≤ b.src) es ∧
        (generate_output_files tags icons hd cfg).2
          = some ((hd ++ ["manifest-icons-fragment.json"] : PPath), manifestJson es)) := by
  constructor
  · intro h1 h2
    refine ⟨tags.mergeSort, List.mergeSort_perm tags _, List.sorted_mergeSort' tags, ?_⟩
    unfold generate_output_files
    simp [h1, h2]
  · intro h1 h2
    refine ⟨icons.mergeSort (fun a b => a.src ≤ b.src), List.mergeSort_perm icons _, ?_, ?_⟩
    · have hs := @List.sorted_mergeSort ManifestEntry
        (fun a b : ManifestEntry => decide (a.src ≤ b.src))
        (fun a b c hab hbc =>
          decide_eq_true (le_trans (of_decide_eq_true hab) (of_decide_eq_true hbc)))
        (fun a b => by
          rcases le_total a.src b.src with hab | hab <;> simp [hab])
        icons
      exact List.Pairwise.imp (fun hab => of_decide_eq_true hab) hs
    · unfold generate_output_files
      simp [h1, h2]

/-- Witness for `C9_output_files_sorted` with tags `["b", "a"]` and one
manifest entry, both outputs enabled. -/
theorem C9_output_files_sorted_witness :
    (∃ ts, List.Perm ts ["b", "a"] ∧ List.Sorted (· ≤ ·) ts ∧
      (generate_output_files ["b", "a"]
          [{ src := "a", sizes := "1x1", type_ := "image/png" }] ["h"]
          { generate_html := true, generate_manifest := true }).1
        = some ((["h", "paste-content-in-site-head-tags.html"] : PPath),
            "<!-- PWA Icons Generated by mad-icon -->\n"
            ++ String.intercalate "\n" (ts.map (fun tag => "  " ++ tag))
            ++ "\n<!-- End PWA Icons -->"))
    ∧ (∃ es, List.Perm es [{ src := "a", sizes := "1x1", type_ := "image/png" }]
        ∧ List.Sorted (fun a b => a.src ≤ b.src) es
        ∧ (generate_output_files ["b", "a"]
            [{ src := "a", sizes := "1x1", type_ := "image/png" }] ["h"]
            { generate_html := true, generate_manifest := true }).2
          = some ((["h", "manifest-icons-fragment.json"] : PPath), manifestJson es)) :=
  ⟨(C9_output_files_sorted ["b", "a"] [{ src := "a", sizes := "1x1", type_ := "image/png" }]
      ["h"] { generate_html := true, generate_manifest := true }).1 rfl (by decide),
   (C9_output_files_sorted ["b", "a"] [{ src := "a", sizes := "1x1", type_ := "image/png" }]
      ["h"] { generate_html := true, generate_manifest := true }).2 rfl (by simp)⟩

/-- C10: `create_macos_clipped_svg` fails (with `ValueError`) exactly when no
content is provided (`None`/empty SVG data and no raster image) or the
target is not square; for a square target with content it succeeds, and a
malformed embedded SVG (parser failure) degrades to the red placeholder
rect instead of raising. -/
theorem C10_clip_svg_error_contract (ops : ExtOps) (svgData : Option String)
    (raster : Option PILImage) (w h : Int) :
    ((∃ e, create_macos_clipped_svg ops svgData raster w h = .error e)
      ↔ (((svgData = none ∨ svgData = some "") ∧ raster = none) ∨ w ≠ h))
    ∧ (∀ s, w = h → raster = none → svgData = some s → s ≠ "" → ops.parseXml s = none →
        create_macos_clipped_svg ops svgData raster w h
          = .ok { size := w, offset := (w : ℚ) * (100 / 1024),
                  rect_size := (w : ℚ) * (824 / 1024), radius := (w : ℚ) * (184 / 1024),
                  clip_path_id := "macosIconMask", content := .placeholder w }) := by
  unfold create_macos_clipped_svg
  constructor
  · by_cases h1 : (svgData = none ∨ svgData = some "") ∧ raster = none
    · rw [if_pos h1]
      simp [h1]
    · rw [if_neg h1]
      by_cases h2 : w ≠ h
      · rw [if_pos h2]
        simp [h1, h2]
      · rw [if_neg h2]
        simp [h1, h2]
  · intro s hwh hr hs hne hparse
    subst hwh
    subst hr
    subst hs
    rw [if_neg (by simp [hne]), if_neg (by simp)]
    simp [hne, hparse]

/-- Witness for `C10_clip_svg_error_contract`: a malformed SVG at square size
128 yields the placeholder document, and missing content at square size 10
yields an error. -/
theorem C10_clip_svg_error_contract_witness :
    create_macos_clipped_svg trivialOps (some "<bad") none 128 128
      = .ok { size := 128, offset := (128 : ℚ) * (100 / 1024),
              rect_size := (128 : ℚ) * (824 / 1024), radius := (128 : ℚ) * (184 / 1024),
              clip_path_id := "macosIconMask", content := .placeholder 128 }
    ∧ (∃ e, create_macos_clipped_svg trivialOps none none 10 10 = .error e) :=
  ⟨(C10_clip_svg_error_contract trivialOps (some "<bad") none 128 128).2 "<bad" rfl rfl rfl
      (by decide) rfl,
   (C10_clip_svg_error_contract trivialOps none none 10 10).1.mpr (Or.inl ⟨Or.inl rfl, rfl⟩)⟩
